import Mathlib

/-!
Verification of the Creato-Ai generation pipeline against its specification.

The development shallowly embeds the core of the repository:

* the WAV container encoder `createWavHeader` / the header-plus-data assembly
  (src/services/geminiService.ts lines 158-175 and 205-208, duplicated in
  src/unnamed/part_000 and in the variant appended to src/services/dbService.ts);
* the retry wrappers (`retry` from src/services/geminiService.ts lines 9-34, and
  `retryP0` from src/unnamed/part_000 lines 10-29, which is textually identical
  to the copy in src/services/dbService.ts);
* the image/thumbnail stage of the orchestrator `generateContent`
  (src/services/geminiService.ts lines 96-124 and src/unnamed/part_000 lines 91-127);
* the audio stage `generateStudioAudio` with its optional gain stage
  (src/services/geminiService.ts lines 177-216, src/unnamed/part_000 lines 184-246);
* the word-count computation (geminiService.ts lines 53-58) and the duration
  clamping effect of src/App.tsx lines 51-68;
* the progress reports emitted by the three orchestrator variants.

Remote calls, `Math.random`, `atob` and `URL.createObjectURL` are modelled as
explicit oracle parameters; machine bytes are `Nat` with explicit `% 256` /
`% 2^32` arithmetic; JavaScript errors are modelled by their message strings
(the code inspects only the message text of the errors it classifies).
-/

/-- JavaScript `String.prototype.includes`: `needle` occurs as a contiguous
substring of `hay`. -/
def strIncludes (hay needle : String) : Bool :=
  decide (needle.data <:+: hay.data)

/-- The little-endian byte serialisation written by `DataView.setUint32(off, v, true)`
(the stored value is `v` reduced modulo 2^32, low byte first). -/
def uint32LE (v : Nat) : List Nat :=
  [v % 256, v / 256 % 256, v / 65536 % 256, v / 16777216 % 256]

/-- The big-endian byte serialisation written by `DataView.setUint32(off, v, false)`
(high byte first, so four-character ASCII markers keep their character order). -/
def uint32BE (v : Nat) : List Nat :=
  [v / 16777216 % 256, v / 65536 % 256, v / 256 % 256, v % 256]

/-- The byte serialisation written by `DataView.setUint16(off, v, littleEndian)`. -/
def uint16Bytes (v : Nat) (littleEndian : Bool) : List Nat :=
  if littleEndian then [v % 256, v / 256 % 256] else [v / 256 % 256, v % 256]

/-- Overwrite the bytes of `buf` starting at offset `off` with `bs`, as a
`DataView` write into an `ArrayBuffer` (all writes below are in bounds). -/
def writeBytes : List Nat → Nat → List Nat → List Nat
  | buf, _, [] => buf
  | [], _, _ :: _ => []
  | _ :: rest, 0, b :: bs => b :: writeBytes rest 0 bs
  | x :: rest, off + 1, bs => x :: writeBytes rest off bs

/-- `view.setUint32(off, v, littleEndian)` on the modelled buffer. -/
def setUint32 (buf : List Nat) (off v : Nat) (littleEndian : Bool) : List Nat :=
  writeBytes buf off (if littleEndian then uint32LE v else uint32BE v)

/-- `view.setUint16(off, v, littleEndian)` on the modelled buffer. -/
def setUint16 (buf : List Nat) (off v : Nat) (littleEndian : Bool) : List Nat :=
  writeBytes buf off (uint16Bytes v littleEndian)

/-- `createWavHeader` (src/services/geminiService.ts lines 158-175; the copies in
src/unnamed/part_000 and src/services/dbService.ts are identical): a 44-byte
zero-initialised `ArrayBuffer` filled by thirteen `DataView` writes.  Bytes 18-19
are never written and stay zero. -/
def createWavHeader (dataLength sampleRate : Nat) : List Nat :=
  let header := List.replicate 44 0
  let header := setUint32 header 0 0x52494646 false
  let header := setUint32 header 4 (36 + dataLength) true
  let header := setUint32 header 8 0x57415645 false
  let header := setUint32 header 12 0x666d7420 false
  let header := setUint16 header 16 16 true
  let header := setUint16 header 20 1 true
  let header := setUint16 header 22 1 true
  let header := setUint32 header 24 sampleRate true
  let header := setUint32 header 28 (sampleRate * 2) true
  let header := setUint16 header 32 2 true
  let header := setUint16 header 34 16 true
  let header := setUint32 header 36 0x64617461 false
  let header := setUint32 header 40 dataLength true
  header

/-- The assembled WAV output of `generateStudioAudio` (geminiService.ts lines
205-208): the 44-byte header for the PCM length, followed immediately by the raw
PCM bytes. -/
def encodeWav (pcm : List Nat) (sampleRate : Nat) : List Nat :=
  createWavHeader pcm.length sampleRate ++ pcm

/-- Read four little-endian bytes back as a number. -/
def leVal32 (bs : List Nat) : Nat :=
  bs.getD 0 0 + bs.getD 1 0 * 256 + bs.getD 2 0 * 65536 + bs.getD 3 0 * 16777216

set_option maxHeartbeats 2000000 in
lemma createWavHeader_eq (L R : Nat) :
    createWavHeader L R =
      [82, 73, 70, 70,
       (36 + L) % 256, (36 + L) / 256 % 256, (36 + L) / 65536 % 256, (36 + L) / 16777216 % 256,
       87, 65, 86, 69,
       102, 109, 116, 32,
       16, 0, 0, 0,
       1, 0, 1, 0,
       R % 256, R / 256 % 256, R / 65536 % 256, R / 16777216 % 256,
       R * 2 % 256, R * 2 / 256 % 256, R * 2 / 65536 % 256, R * 2 / 16777216 % 256,
       2, 0, 16, 0,
       100, 97, 116, 97,
       L % 256, L / 256 % 256, L / 65536 % 256, L / 16777216 % 256] := rfl

lemma leVal32_uint32LE (v : Nat) : leVal32 (uint32LE v) = v % 4294967296 := by
  show v % 256 + v / 256 % 256 * 256 + v / 65536 % 256 * 65536 +
      v / 16777216 % 256 * 16777216 = v % 4294967296
  omega

/-- Claim C1: for every PCM byte list and every sample rate, the encoded WAV
container has total length 44 plus the PCM length, its chunk-size field (offset 4)
holds 36 plus the PCM length and its data-length field (offset 40) holds the PCM
length, both little-endian; the four-character markers RIFF, WAVE, fmt and data
are stored big-endian (ASCII order preserved); the sample-rate and byte-rate
fields are little-endian; and the raw PCM bytes follow the header immediately
with no padding. -/
theorem wav_container_layout (pcm : List Nat) (R : Nat)
    (hL : 36 + pcm.length < 4294967296) :
    (encodeWav pcm R).length = 44 + pcm.length ∧
    ((encodeWav pcm R).drop 4).take 4 = uint32LE (36 + pcm.length) ∧
    leVal32 (uint32LE (36 + pcm.length)) = 36 + pcm.length ∧
    ((encodeWav pcm R).drop 40).take 4 = uint32LE pcm.length ∧
    leVal32 (uint32LE pcm.length) = pcm.length ∧
    (encodeWav pcm R).take 4 = "RIFF".data.map Char.toNat ∧
    ((encodeWav pcm R).drop 8).take 4 = "WAVE".data.map Char.toNat ∧
    ((encodeWav pcm R).drop 12).take 4 = "fmt ".data.map Char.toNat ∧
    ((encodeWav pcm R).drop 36).take 4 = "data".data.map Char.toNat ∧
    ((encodeWav pcm R).drop 24).take 4 = uint32LE R ∧
    ((encodeWav pcm R).drop 28).take 4 = uint32LE (R * 2) ∧
    (encodeWav pcm R).drop 44 = pcm := by
  have he : encodeWav pcm R =
      [82, 73, 70, 70,
       (36 + pcm.length) % 256, (36 + pcm.length) / 256 % 256,
       (36 + pcm.length) / 65536 % 256, (36 + pcm.length) / 16777216 % 256,
       87, 65, 86, 69,
       102, 109, 116, 32,
       16, 0, 0, 0,
       1, 0, 1, 0,
       R % 256, R / 256 % 256, R / 65536 % 256, R / 16777216 % 256,
       R * 2 % 256, R * 2 / 256 % 256, R * 2 / 65536 % 256, R * 2 / 16777216 % 256,
       2, 0, 16, 0,
       100, 97, 116, 97,
       pcm.length % 256, pcm.length / 256 % 256,
       pcm.length / 65536 % 256, pcm.length / 16777216 % 256] ++ pcm := by
    rw [encodeWav, createWavHeader_eq]
  refine ⟨?_, ?_, ?_, ?_, ?_, ?_, ?_, ?_, ?_, ?_, ?_, ?_⟩
  · rw [he]; simp; omega
  · rw [he]; rfl
  · rw [leVal32_uint32LE]; omega
  · rw [he]; rfl
  · rw [leVal32_uint32LE]; omega
  · rw [he]; rfl
  · rw [he]; rfl
  · rw [he]; rfl
  · rw [he]; rfl
  · rw [he]; rfl
  · rw [he]; rfl
  · rw [he]; simp

theorem wav_container_layout_witness :
    (encodeWav [7, 8, 9] 24000).length = 44 + ([7, 8, 9] : List Nat).length ∧
    leVal32 (uint32LE (36 + ([7, 8, 9] : List Nat).length)) =
      36 + ([7, 8, 9] : List Nat).length ∧
    (encodeWav [7, 8, 9] 24000).drop 44 = [7, 8, 9] :=
  ⟨(wav_container_layout [7, 8, 9] 24000 (by decide)).1,
   (wav_container_layout [7, 8, 9] 24000 (by decide)).2.2.1,
   (wav_container_layout [7, 8, 9] 24000 (by decide)).2.2.2.2.2.2.2.2.2.2.2⟩

/-- Outcome of one run of a retry wrapper: the final result (success value or the
error finally raised), the number of times the wrapped operation was invoked, and
the wait durations slept between attempts, in order. -/
structure RetryTrace (α : Type) where
  result : Except String α
  calls : Nat
  sleeps : List Nat

/-- The distinguished credential-configuration error raised by `retry`
(src/services/geminiService.ts line 20). -/
def apiKeyIssueMessage : String :=
  "API Key issue: Please check your Netlify Environment Variables. Make sure API_KEY is set."

/-- Loop body of `retry` (src/services/geminiService.ts lines 9-34).  `fn i` is
the outcome of the `(i+1)`-th invocation of the wrapped operation (errors are
modelled by their message strings, matching `error?.message || JSON.stringify(error)`);
`fuel` is the number of retries still allowed (`retries - i`), so `fuel = 0`
corresponds to the `i === retries` re-raise. -/
def retryAux {α : Type} (fn : Nat → Except String α) :
    Nat → Nat → Nat → RetryTrace α
  | fuel, i, currentDelay =>
    match fn i with
    | .ok v => ⟨.ok v, 1, []⟩
    | .error msg =>
      let isRateLimit := strIncludes msg "429" || strIncludes msg "RESOURCE_EXHAUSTED"
      let isAuthError := strIncludes msg "403" || strIncludes msg "API_KEY_INVALID" ||
        strIncludes msg "not found"
      if isAuthError then ⟨.error apiKeyIssueMessage, 1, []⟩
      else
        match fuel with
        | 0 => ⟨.error msg, 1, []⟩
        | fuel + 1 =>
          let waitTime := if isRateLimit then currentDelay * 3 else currentDelay
          let rest := retryAux fn fuel (i + 1) (currentDelay * 2)
          ⟨rest.result, rest.calls + 1, waitTime :: rest.sleeps⟩

/-- `retry(fn, retries, initialDelay)` of src/services/geminiService.ts: rate-limit
errors triple the current delay, credential errors fail immediately with
`apiKeyIssueMessage`, and the base delay doubles after every sleep.  Source
defaults are `retries = 3`, `initialDelay = 3000`. -/
def retry {α : Type} (fn : Nat → Except String α) (retries initialDelay : Nat) :
    RetryTrace α :=
  retryAux fn retries 0 initialDelay

/-- Loop body of the `retry` variant of src/unnamed/part_000 lines 10-29 (the copy
in src/services/dbService.ts is textually identical): no credential fast-path, and
rate-limit errors double the current wait.  The source classifies a rate limit via
`error?.message?.includes('429') || error?.status === 'RESOURCE_EXHAUSTED' ||
JSON.stringify(error).includes('429')`; errors are modelled by their message
strings, so the test is `strIncludes msg "429"`. -/
def retryP0Aux {α : Type} (fn : Nat → Except String α) :
    Nat → Nat → Nat → RetryTrace α
  | fuel, i, currentDelay =>
    match fn i with
    | .ok v => ⟨.ok v, 1, []⟩
    | .error msg =>
      let isRateLimit := strIncludes msg "429"
      match fuel with
      | 0 => ⟨.error msg, 1, []⟩
      | fuel + 1 =>
        let waitTime := if isRateLimit then currentDelay * 2 else currentDelay
        let rest := retryP0Aux fn fuel (i + 1) (currentDelay * 2)
        ⟨rest.result, rest.calls + 1, waitTime :: rest.sleeps⟩

/-- `retry(fn, retries, initialDelay)` of src/unnamed/part_000 (and of the copy in
src/services/dbService.ts).  Source defaults are `retries = 3`, `initialDelay = 2000`. -/
def retryP0 {α : Type} (fn : Nat → Except String α) (retries initialDelay : Nat) :
    RetryTrace α :=
  retryP0Aux fn retries 0 initialDelay

/-- Claim C4 (amended): the geminiService.ts retry wrapper, given an operation
whose first attempt fails with a credential/authentication signal (message
containing 403, API_KEY_INVALID or not found), fails on that first attempt:
the operation is invoked exactly once, nothing is slept, and the distinguished
credential-configuration error is surfaced instead of the raw error.  (The
part_000/dbService retry variant has no such fast path; see the counterexample.) -/
theorem retry_auth_fast_fail {α : Type} (fn : Nat → Except String α) (msg : String)
    (retries initialDelay : Nat)
    (h0 : fn 0 = .error msg)
    (ha : (strIncludes msg "403" || strIncludes msg "API_KEY_INVALID" ||
      strIncludes msg "not found") = true) :
    retry fn retries initialDelay = ⟨.error apiKeyIssueMessage, 1, []⟩ := by
  cases retries <;> simp [retry, retryAux, h0, ha]

theorem retry_auth_fast_fail_witness :
    retry (fun _ => (.error "403 Forbidden" : Except String Nat)) 3 3000 =
      ⟨.error apiKeyIssueMessage, 1, []⟩ :=
  retry_auth_fast_fail (fun _ => .error "403 Forbidden") "403 Forbidden" 3 3000 rfl
    (by decide)

/-- Claim C4 counterexample: the retry variant of src/unnamed/part_000 and
src/services/dbService.ts, given an operation that always fails with the
credential signal `403 API_KEY_INVALID` (with its source defaults
`retries = 3`, `initialDelay = 2000`), invokes the operation four times, sleeps
three times with backoff, and surfaces the raw error — not once, without
sleeping, with a distinguished credential error, as the claim states. -/
theorem retryP0_auth_counterexample :
    (retryP0 (fun _ => (.error "403 API_KEY_INVALID" : Except String Nat)) 3 2000).calls
        = 4 ∧
    (retryP0 (fun _ => (.error "403 API_KEY_INVALID" : Except String Nat)) 3 2000).sleeps
        = [2000, 4000, 8000] ∧
    (retryP0 (fun _ => (.error "403 API_KEY_INVALID" : Except String Nat)) 3 2000).result
        = .error "403 API_KEY_INVALID" :=
  ⟨rfl, rfl, rfl⟩

/-- Claim C5: both retry wrappers, given an operation that fails with a rate-limit
signal (a 429 message that is not also a credential signal) on the first call and
succeeds on the second, and any `maxRetries ≥ 1`, return the success value, invoke
the operation exactly twice, and sleep exactly once before the second invocation,
for the rate-limit-amplified delay: `initialDelay * 3` in geminiService.ts and
`initialDelay * 2` in part_000/dbService. -/
theorem retry_rate_limit_then_success {α : Type} (fn : Nat → Except String α) (v : α)
    (msg : String) (n initialDelay : Nat)
    (h0 : fn 0 = .error msg) (h1 : fn 1 = .ok v)
    (hr : strIncludes msg "429" = true)
    (ha : (strIncludes msg "403" || strIncludes msg "API_KEY_INVALID" ||
      strIncludes msg "not found") = false) :
    retry fn (n + 1) initialDelay = ⟨.ok v, 2, [initialDelay * 3]⟩ ∧
    retryP0 fn (n + 1) initialDelay = ⟨.ok v, 2, [initialDelay * 2]⟩ := by
  constructor
  · simp [retry, retryAux, h0, h1, hr, ha]
  · simp [retryP0, retryP0Aux, h0, h1, hr]

/-- The operation used to witness `retry_rate_limit_then_success`: one 429 failure,
then success. -/
def rlFn : Nat → Except String Nat :=
  fun i => if i = 0 then .error "429 RESOURCE_EXHAUSTED" else .ok 42

theorem retry_rate_limit_then_success_witness :
    retry rlFn 3 3000 = ⟨.ok 42, 2, [9000]⟩ ∧
    retryP0 rlFn 3 3000 = ⟨.ok 42, 2, [6000]⟩ :=
  retry_rate_limit_then_success rlFn 42 "429 RESOURCE_EXHAUSTED" 2 3000 rfl rfl
    (by decide) (by decide)

/-- A picsum.photos placeholder image reference with the given seed token, sized
by aspect ratio exactly as in the source
(`config.aspectRatio === AspectRatio.VERTICAL ? '720/1280' : '1280/720'`;
`vertical` models that comparison). -/
def picsum (seed : String) (vertical : Bool) : String :=
  "https://picsum.photos/seed/" ++ seed ++ "/" ++
    (if vertical then "720/1280" else "1280/720")

/-- An image reference is a placeholder exactly when it points at the
picsum.photos placeholder service (genuine generated images are
`data:image/png;base64,...` URIs). -/
def isPlaceholder (s : String) : Bool :=
  "https://picsum.photos/".data.isPrefixOf s.data

lemma data_prefix_append (s t : String) : s.data <+: (s ++ t).data :=
  ⟨t.data, (String.data_append s t).symm⟩

lemma isPlaceholder_picsum (seed : String) (v : Bool) :
    isPlaceholder (picsum seed v) = true := by
  have h1 : "https://picsum.photos/".data <+: "https://picsum.photos/seed/".data := by
    decide
  simp only [isPlaceholder, picsum]
  rw [List.isPrefixOf_iff_prefix]
  exact ((h1.trans (data_prefix_append "https://picsum.photos/seed/" seed)).trans
    (data_prefix_append _ "/")).trans (data_prefix_append _ _)

/-- Result of the image-plus-thumbnail stage of the orchestrator: the four image
references, the thumbnail reference, the final quota-exhausted flag, and how many
image-generation network calls were attempted in total. -/
structure ImageStage where
  images : List String
  thumbnail : String
  isQuotaExhausted : Bool
  netCalls : Nat

/-- One iteration of the image loop of `generateContent`
(src/services/geminiService.ts lines 100-116).  `net k` is the outcome of the
`(k+1)`-th `generateStudioImage` network call of the run (after its internal
retries); the state is (images so far, quota flag, network calls so far); `i` is
the loop index. -/
def imageStepG (net : Nat → Except String String) (vertical : Bool)
    (st : List String × Bool × Nat) (i : Nat) : List String × Bool × Nat :=
  match st with
  | (images, quota, k) =>
    if quota then
      (images ++ [picsum (toString i) vertical], quota, k)
    else
      match net k with
      | .ok img => (images ++ [img], quota, k + 1)
      | .error msg =>
        (images ++ [picsum ("err" ++ toString i) vertical],
         quota || strIncludes msg "429", k + 1)

/-- The image-plus-thumbnail stage of `generateContent` in
src/services/geminiService.ts (lines 96-124): four loop iterations, then the
thumbnail attempt, which is made unconditionally — the quota flag is NOT
consulted before it — falling back to the `thumb`-seeded placeholder on failure. -/
def imagesAndThumb (net : Nat → Except String String) (vertical : Bool) :
    ImageStage :=
  match (List.range 4).foldl (imageStepG net vertical) ([], false, 0) with
  | (images, quota, k) =>
    match net k with
    | .ok t => ⟨images, t, quota, k + 1⟩
    | .error _ => ⟨images, picsum "thumb" vertical, quota, k + 1⟩

/-- One iteration of the image loop of `generateContent` in src/unnamed/part_000
(lines 96-114).  `rand r` models the `(r+1)`-th `Math.random()` seed token of the
run; the state is (images, quota flag, network calls, random draws). -/
def imageStepP0 (net : Nat → Except String String) (rand : Nat → String)
    (vertical : Bool) (st : List String × Bool × Nat × Nat) (i : Nat) :
    List String × Bool × Nat × Nat :=
  match st with
  | (images, quota, k, r) =>
    if quota then
      (images ++ [picsum ("fallback_" ++ toString i ++ "_" ++ rand r) vertical],
       quota, k, r + 1)
    else
      match net k with
      | .ok img => (images ++ [img], quota, k + 1, r)
      | .error msg =>
        (images ++ [picsum ("err_" ++ toString i ++ "_" ++ rand r) vertical],
         quota || strIncludes msg "429", k + 1, r + 1)

/-- The image-plus-thumbnail stage of `generateContent` in src/unnamed/part_000
(lines 91-127): one iteration per image prompt, then a thumbnail that is skipped
entirely (placeholder, no network call) when the quota flag is set. -/
def imagesAndThumbP0 (net : Nat → Except String String) (rand : Nat → String)
    (vertical : Bool) (numPrompts : Nat) : ImageStage :=
  match (List.range numPrompts).foldl (imageStepP0 net rand vertical)
      ([], false, 0, 0) with
  | (images, quota, k, r) =>
    if quota then
      ⟨images, picsum ("thumb_" ++ rand r) vertical, quota, k⟩
    else
      match net k with
      | .ok t => ⟨images, t, quota, k + 1⟩
      | .error _ => ⟨images, picsum ("thumb_err_" ++ rand r) vertical, quota, k + 1⟩

/-- Image adapter used for the claim C2 counterexample: image call 1 succeeds,
image call 2 fails with a rate-limit signal, any later call succeeds. -/
def cnet : Nat → Except String String :=
  fun k =>
    if k = 0 then .ok "data:image/png;base64,AAAA"
    else if k = 1 then .error "429 RESOURCE_EXHAUSTED"
    else .ok "data:image/png;base64,BBBB"

/-- Claim C2 counterexample: in the src/services/geminiService.ts orchestrator,
when the image adapter fails with a rate-limit signal on image 2 of 4, the
quota-exhausted flag is set and images 2-4 are placeholders, but a THIRD network
call is still attempted for the thumbnail, and when that call succeeds the
thumbnail is a genuine image, not a placeholder — contradicting the claim that no
further image or thumbnail network calls are attempted and that the thumbnail is
a placeholder. -/
theorem quota_thumbnail_counterexample :
    (imagesAndThumb cnet true).isQuotaExhausted = true ∧
    (imagesAndThumb cnet true).netCalls = 3 ∧
    (imagesAndThumb cnet true).thumbnail = "data:image/png;base64,BBBB" ∧
    isPlaceholder (imagesAndThumb cnet true).thumbnail = false ∧
    (imagesAndThumb cnet true).images.map isPlaceholder = [false, true, true, true] :=
  ⟨rfl, rfl, rfl, rfl, rfl⟩

/-- Claim C2 (amended): when the image adapter fails with a rate-limit signal on
image 2 of 4 (first call succeeds, second fails with a 429 message), then: in the
part_000 orchestrator variant the claim holds in full — the quota flag is set,
images 2, 3, 4 and the thumbnail are placeholders, and exactly the 2 network calls
already made are ever attempted; in the geminiService.ts variant the flag is set
and images 2, 3, 4 are placeholders with no further image-loop network call, but
one further network call is still attempted for the thumbnail (3 calls in total),
so the thumbnail is a placeholder only if that call fails. -/
theorem quota_skip_amended (net : Nat → Except String String) (rand : Nat → String)
    (v : Bool) (img m : String)
    (h0 : net 0 = .ok img) (h1 : net 1 = .error m)
    (hm : strIncludes m "429" = true) :
    imagesAndThumbP0 net rand v 4 =
      ⟨[img,
        picsum ("err_" ++ toString 1 ++ "_" ++ rand 0) v,
        picsum ("fallback_" ++ toString 2 ++ "_" ++ rand 1) v,
        picsum ("fallback_" ++ toString 3 ++ "_" ++ rand 2) v],
       picsum ("thumb_" ++ rand 3) v, true, 2⟩ ∧
    (imagesAndThumbP0 net rand v 4).images.map isPlaceholder =
      [isPlaceholder img, true, true, true] ∧
    isPlaceholder (imagesAndThumbP0 net rand v 4).thumbnail = true ∧
    (imagesAndThumbP0 net rand v 4).netCalls = 2 ∧
    (imagesAndThumb net v).isQuotaExhausted = true ∧
    (imagesAndThumb net v).images =
      [img, picsum ("err" ++ toString 1) v, picsum (toString 2) v,
       picsum (toString 3) v] ∧
    (imagesAndThumb net v).netCalls = 3 := by
  have hr4 : List.range 4 = [0, 1, 2, 3] := rfl
  have hres : imagesAndThumbP0 net rand v 4 =
      ⟨[img,
        picsum ("err_" ++ toString 1 ++ "_" ++ rand 0) v,
        picsum ("fallback_" ++ toString 2 ++ "_" ++ rand 1) v,
        picsum ("fallback_" ++ toString 3 ++ "_" ++ rand 2) v],
       picsum ("thumb_" ++ rand 3) v, true, 2⟩ := by
    simp [imagesAndThumbP0, hr4, imageStepP0, h0, h1, hm]
  have hg : ∀ st, imagesAndThumb net v = st →
      (imagesAndThumb net v).isQuotaExhausted = true := fun _ _ => by
    cases hn2 : net 2 <;>
      simp [imagesAndThumb, hr4, imageStepG, h0, h1, hm, hn2]
  refine ⟨hres, ?_, ?_, ?_, ?_, ?_, ?_⟩
  · rw [hres]; simp [isPlaceholder_picsum]
  · rw [hres]; simp [isPlaceholder_picsum]
  · rw [hres]
  · exact hg _ rfl
  · cases hn2 : net 2 <;>
      simp [imagesAndThumb, hr4, imageStepG, h0, h1, hm, hn2]
  · cases hn2 : net 2 <;>
      simp [imagesAndThumb, hr4, imageStepG, h0, h1, hm, hn2]

theorem quota_skip_amended_witness :
    isPlaceholder (imagesAndThumbP0 cnet (fun _ => "r") true 4).thumbnail = true ∧
    (imagesAndThumbP0 cnet (fun _ => "r") true 4).netCalls = 2 ∧
    (imagesAndThumb cnet true).netCalls = 3 :=
  ⟨(quota_skip_amended cnet (fun _ => "r") true "data:image/png;base64,AAAA"
      "429 RESOURCE_EXHAUSTED" rfl rfl (by decide)).2.2.1,
   (quota_skip_amended cnet (fun _ => "r") true "data:image/png;base64,AAAA"
      "429 RESOURCE_EXHAUSTED" rfl rfl (by decide)).2.2.2.1,
   (quota_skip_amended cnet (fun _ => "r") true "data:image/png;base64,AAAA"
      "429 RESOURCE_EXHAUSTED" rfl rfl (by decide)).2.2.2.2.2.2⟩

/-- Truncation toward zero: the integer conversion JavaScript applies when a
(clamped, hence in-range) float is stored into an `Int16Array` slot. -/
def truncQ (q : ℚ) : ℤ :=
  if 0 ≤ q then ⌊q⌋ else ⌈q⌉

/-- The gain loop of `generateStudioAudio` in src/unnamed/part_000 (lines
227-233): skipped entirely when the factor is 1.0, otherwise each 16-bit sample
is multiplied by the factor and clamped via
`Math.max(-32768, Math.min(32767, scaled))` before being stored back. -/
def applyVolume (volumeFactor : ℚ) (samples : List ℤ) : List ℤ :=
  if volumeFactor = 1 then samples
  else samples.map fun s => truncQ (max (-32768) (min 32767 ((s : ℚ) * volumeFactor)))

/-- `config.volume || 1.0` (src/unnamed/part_000 line 226): the only falsy
rational is 0 (JavaScript additionally maps NaN, absent from ℚ, to 1.0). -/
def volumeFactorOf (volume : ℚ) : ℚ :=
  if volume = 0 then 1 else volume

/-- Reinterpret consecutive little-endian byte pairs as signed 16-bit samples, as
`new Int16Array(pcmData.buffer)` does. -/
def toSigned16 (u : Nat) : ℤ :=
  if u % 65536 < 32768 then (u % 65536 : ℤ) else (u % 65536 : ℤ) - 65536

def bytesToSamples : List Nat → List ℤ
  | b0 :: b1 :: rest => toSigned16 (b0 % 256 + b1 % 256 * 256) :: bytesToSamples rest
  | _ => []

/-- Store signed 16-bit samples back as little-endian byte pairs (the in-place
`Int16Array` writes seen through the `Uint8Array` view of the same buffer). -/
def samplesToBytes : List ℤ → List Nat
  | [] => []
  | s :: rest => (s.emod 65536).toNat % 256 :: (s.emod 65536).toNat / 256 :: samplesToBytes rest

/-- The whole gain stage of src/unnamed/part_000 lines 226-233 at the byte level.
Constructing `new Int16Array(pcmData.buffer)` throws a RangeError for an
odd-length buffer, which the surrounding try/catch absorbs; that is the `.error`
case. -/
def gainStageBytes (volume : ℚ) (pcm : List Nat) : Except String (List Nat) :=
  let volumeFactor := volumeFactorOf volume
  if volumeFactor = 1 then .ok pcm
  else if pcm.length % 2 = 1 then .error "RangeError: invalid typed array length"
  else .ok (samplesToBytes (applyVolume volumeFactor (bytesToSamples pcm)))

/-- The audio artifact returned by `generateStudioAudio`: the blob bytes and the
object URL (`⟨[], ""⟩` models `{ blob: new Blob(), url: '' }`). -/
structure AudioArtifact where
  blob : List Nat
  url : String

/-- `generateStudioAudio` of src/services/geminiService.ts (lines 177-216).
`apiResult` is the outcome of the retried TTS call — `.error` when the retry
wrapper finally threw, `.ok none` when the response carried no inline data,
`.ok (some b64)` otherwise; `atobR` models `atob` (which throws on malformed
input, also absorbed by the try/catch); `mkUrl` models `URL.createObjectURL`.
Every path returns an artifact: no error escapes to the caller. -/
def generateStudioAudio (apiResult : Except String (Option String))
    (atobR : String → Except String (List Nat)) (mkUrl : List Nat → String) :
    AudioArtifact :=
  match apiResult with
  | .error _ => ⟨[], ""⟩
  | .ok none => ⟨[], ""⟩
  | .ok (some b64) =>
    match atobR b64 with
    | .error _ => ⟨[], ""⟩
    | .ok pcm => ⟨encodeWav pcm 24000, mkUrl (encodeWav pcm 24000)⟩

/-- `generateStudioAudio` of src/unnamed/part_000 (lines 184-246): as the
geminiService.ts variant, with the optional gain stage between decoding and WAV
assembly. -/
def generateStudioAudioP0 (apiResult : Except String (Option String))
    (atobR : String → Except String (List Nat)) (volume : ℚ)
    (mkUrl : List Nat → String) : AudioArtifact :=
  match apiResult with
  | .error _ => ⟨[], ""⟩
  | .ok none => ⟨[], ""⟩
  | .ok (some b64) =>
    match atobR b64 with
    | .error _ => ⟨[], ""⟩
    | .ok pcm =>
      match gainStageBytes volume pcm with
      | .error _ => ⟨[], ""⟩
      | .ok pcm2 => ⟨encodeWav pcm2 24000, mkUrl (encodeWav pcm2 24000)⟩

/-- Claim C3: the audio stage never propagates an error — its return type is a
plain artifact, and on every failure path (the retried remote call threw, the
response carried no inline payload, decoding the payload threw, or the gain
stage threw on a malformed buffer) it returns the explicitly empty artifact
`⟨[], ""⟩`, in both the geminiService.ts and the part_000 variant. -/
theorem audio_failure_yields_empty
    (atobR : String → Except String (List Nat)) (mkUrl : List Nat → String)
    (vol vol2 : ℚ) (e b b2 : String) (pcm2 : List Nat)
    (hdec : atobR b = .error e)
    (hdec2 : atobR b2 = .ok pcm2) (hodd : pcm2.length % 2 = 1)
    (hvol2 : volumeFactorOf vol2 ≠ 1) :
    generateStudioAudio (.error e) atobR mkUrl = ⟨[], ""⟩ ∧
    generateStudioAudio (.ok none) atobR mkUrl = ⟨[], ""⟩ ∧
    generateStudioAudio (.ok (some b)) atobR mkUrl = ⟨[], ""⟩ ∧
    generateStudioAudioP0 (.error e) atobR vol mkUrl = ⟨[], ""⟩ ∧
    generateStudioAudioP0 (.ok none) atobR vol mkUrl = ⟨[], ""⟩ ∧
    generateStudioAudioP0 (.ok (some b)) atobR vol mkUrl = ⟨[], ""⟩ ∧
    generateStudioAudioP0 (.ok (some b2)) atobR vol2 mkUrl = ⟨[], ""⟩ := by
  refine ⟨rfl, rfl, ?_, rfl, rfl, ?_, ?_⟩
  · simp [generateStudioAudio, hdec]
  · simp [generateStudioAudioP0, hdec]
  · simp [generateStudioAudioP0, hdec2, gainStageBytes, hvol2, hodd]

theorem audio_failure_yields_empty_witness :
    generateStudioAudio (.ok (some "bad"))
      (fun s => if s = "bad" then .error "InvalidCharacterError" else .ok [1, 2, 3])
      (fun _ => "blob:demo") = ⟨[], ""⟩ ∧
    generateStudioAudioP0 (.ok (some "odd"))
      (fun s => if s = "bad" then .error "InvalidCharacterError" else .ok [1, 2, 3])
      2 (fun _ => "blob:demo") = ⟨[], ""⟩ :=
  ⟨(audio_failure_yields_empty
      (fun s => if s = "bad" then .error "InvalidCharacterError" else .ok [1, 2, 3])
      (fun _ => "blob:demo") 1 2 "InvalidCharacterError" "bad" "odd" [1, 2, 3]
      rfl rfl rfl (by decide)).2.2.1,
   (audio_failure_yields_empty
      (fun s => if s = "bad" then .error "InvalidCharacterError" else .ok [1, 2, 3])
      (fun _ => "blob:demo") 1 2 "InvalidCharacterError" "bad" "odd" [1, 2, 3]
      rfl rfl rfl (by decide)).2.2.2.2.2.2⟩

lemma truncQ_bounds {lo hi : ℤ} {q : ℚ} (h1 : (lo : ℚ) ≤ q) (h2 : q ≤ (hi : ℚ)) :
    lo ≤ truncQ q ∧ truncQ q ≤ hi := by
  unfold truncQ
  split
  · exact ⟨by calc lo = ⌊(lo : ℚ)⌋ := (Int.floor_intCast lo).symm
        _ ≤ ⌊q⌋ := Int.floor_mono h1,
      by calc ⌊q⌋ ≤ ⌊(hi : ℚ)⌋ := Int.floor_mono h2
        _ = hi := Int.floor_intCast hi⟩
  · exact ⟨by calc lo = ⌈(lo : ℚ)⌉ := (Int.ceil_intCast lo).symm
        _ ≤ ⌈q⌉ := Int.ceil_mono h1,
      by calc ⌈q⌉ ≤ ⌈(hi : ℚ)⌉ := Int.ceil_mono h2
        _ = hi := Int.ceil_intCast hi⟩

/-- Claim C6: the gain stage applied with factor 1.0 leaves the sample list
bit-identical (the loop is skipped), and with any factor every resulting sample
lies in the signed 16-bit range [-32768, 32767] (each sample is multiplied by
the factor, clamped, then truncated); the stage is a pure function of the
samples and the factor, hence bit-reproducible. -/
theorem gain_unity_and_range (samples : List ℤ) (f : ℚ)
    (h : ∀ s ∈ samples, -32768 ≤ s ∧ s ≤ 32767) :
    applyVolume 1 samples = samples ∧
    ∀ t ∈ applyVolume f samples, -32768 ≤ t ∧ t ≤ 32767 := by
  constructor
  · simp [applyVolume]
  · intro t ht
    by_cases hf : f = 1
    · rw [applyVolume, if_pos hf] at ht
      exact h t ht
    · rw [applyVolume, if_neg hf] at ht
      simp only [List.mem_map] at ht
      obtain ⟨s, _, rfl⟩ := ht
      have hc1 : ((-32768 : ℤ) : ℚ) ≤ max (-32768) (min 32767 ((s : ℚ) * f)) := by
        push_cast
        exact le_max_left _ _
      have hc2 : max (-32768 : ℚ) (min 32767 ((s : ℚ) * f)) ≤ ((32767 : ℤ) : ℚ) := by
        push_cast
        exact max_le (by norm_num) (min_le_left _ _)
      exact truncQ_bounds hc1 hc2

theorem gain_unity_and_range_witness :
    (∀ s ∈ ([100, -200] : List ℤ), -32768 ≤ s ∧ s ≤ 32767) ∧
    (applyVolume 1 [100, -200] = [100, -200] ∧
     ∀ t ∈ applyVolume (1 / 2) [100, -200], -32768 ≤ t ∧ t ≤ 32767) :=
  ⟨by decide, gain_unity_and_range [100, -200] (1 / 2) (by decide)⟩

/-- Claim C10: a volume of 0 (the only falsy number) is replaced by 1.0 by
`config.volume || 1.0`, so the gain stage leaves the PCM samples (and the raw
byte buffer) unchanged — volume 0 does not silence or attenuate the audio. -/
theorem volume_zero_treated_as_unity (samples : List ℤ) (pcm : List Nat) :
    volumeFactorOf 0 = 1 ∧
    applyVolume (volumeFactorOf 0) samples = samples ∧
    gainStageBytes 0 pcm = .ok pcm := by
  refine ⟨rfl, ?_, rfl⟩
  simp [applyVolume, volumeFactorOf]

/-- The `Speed` enum of src/types (values Slow / Normal / Fast). -/
inductive Speed
  | slow
  | normal
  | fast
  deriving DecidableEq

/-- The speaking-pace multiplier of `generateContent`
(src/services/geminiService.ts lines 54-56): `let multiplier = 2.5`, overwritten
to 2.0 for Slow and 3.0 for Fast. -/
def multiplierFor (speed : Speed) : ℚ :=
  if speed = Speed.slow then 2.0 else if speed = Speed.fast then 3.0 else 2.5

/-- `totalSeconds` of `generateContent` (geminiService.ts line 53):
`(config.durationMinutes * 60) + config.durationSeconds`. -/
def totalSeconds (durationMinutes durationSeconds : Nat) : Nat :=
  durationMinutes * 60 + durationSeconds

/-- `targetWordCount` of `generateContent` (geminiService.ts line 58):
`Math.round(totalSeconds * multiplier)`.  Mathlib's `round` is `⌊x + 1/2⌋`,
which agrees with JavaScript `Math.round` (round half toward positive infinity). -/
def targetWordCount (durationMinutes durationSeconds : Nat) (speed : Speed) : ℤ :=
  round ((totalSeconds durationMinutes durationSeconds : ℚ) * multiplierFor speed)

/-- The word-count formula as the spec states it (§3 and §8):
`round(total_seconds × speed_multiplier)` with total seconds `60·m + s` and
multiplier table 2.0 (slow), 2.5 (normal), 3.0 (fast).  Stated from the spec's
words, to be compared with the source computation `targetWordCount`. -/
def specSpeedMultiplier : Speed → ℚ
  | .slow => 2
  | .normal => 5 / 2
  | .fast => 3

/-- Claim C7: for every duration and speed, the target word count sent to the
text adapter equals `round((60·m + s) × multiplier)` with multiplier 2.0 / 2.5 /
3.0 for slow / normal / fast, and in particular 0m30s at normal speed yields 75. -/
theorem word_count_formula :
    (∀ m s speed, targetWordCount m s speed =
      round (((60 * m + s : Nat) : ℚ) * specSpeedMultiplier speed)) ∧
    targetWordCount 0 30 Speed.normal = 75 := by
  constructor
  · intro m s speed
    have harg : ((totalSeconds m s : Nat) : ℚ) = ((60 * m + s : Nat) : ℚ) := by
      unfold totalSeconds
      push_cast
      ring
    cases speed <;>
      simp [targetWordCount, multiplierFor, specSpeedMultiplier, harg] <;>
      norm_num
  · have h75 : ((totalSeconds 0 30 : Nat) : ℚ) * multiplierFor Speed.normal =
        ((75 : ℤ) : ℚ) := by
      norm_num [totalSeconds, multiplierFor]
      split_ifs <;> simp_all
    rw [targetWordCount, h75, round_intCast]

/-- The `ContentType` enum of src/types (Shorts/Reels, Long Video, Podcast,
News Bulletin). -/
inductive ContentType
  | reel
  | long
  | podcast
  | news
  deriving DecidableEq

/-- The duration-clamping effect of src/App.tsx lines 51-68, as the pure state
transform it applies to (durationMinutes, durationSeconds): for Shorts/Reels,
minutes > 0 forces (0, 60) and otherwise seconds are capped at 60; for all other
formats a total above 300 s forces (5, 0). -/
def clampDuration (contentType : ContentType) (mins secs : Nat) : Nat × Nat :=
  if contentType = ContentType.reel then
    if 0 < mins then (0, 60)
    else if 60 < secs then (mins, 60)
    else (mins, secs)
  else
    if 300 < mins * 60 + secs then (5, 0)
    else (mins, secs)

/-- Claim C8: a short-form config with 0m90s is clamped to 60 seconds before the
word-count computation sees it (the clamped duration feeds `totalSeconds`), and
in general the clamped duration is at most 60 seconds for short-form and at most
300 seconds for every other format. -/
theorem duration_clamp (contentType : ContentType) (m s : Nat) :
    clampDuration ContentType.reel 0 90 = (0, 60) ∧
    totalSeconds (clampDuration ContentType.reel 0 90).1
      (clampDuration ContentType.reel 0 90).2 = 60 ∧
    totalSeconds (clampDuration contentType m s).1
      (clampDuration contentType m s).2 ≤
      (if contentType = ContentType.reel then 60 else 300) := by
  refine ⟨rfl, rfl, ?_⟩
  cases contentType <;>
    simp only [clampDuration, totalSeconds, if_true, if_false, reduceCtorEq,
      reduceIte] <;>
    split_ifs <;>
    simp <;>
    omega

/-- The sequence of percentages delivered to a supplied progress callback by
`generateContent` of src/services/geminiService.ts (lines 51, 93, 115, 126, 128):
5, 25, then `25 + (i+1)*15` after each of the four image iterations, then 90
and 100.  When no callback is supplied nothing is delivered (zero invocations). -/
def progressGemini : List Nat :=
  [5, 25] ++ (List.range 4).map (fun i => 25 + (i + 1) * 15) ++ [90, 100]

/-- The percentages delivered by `generateContent` of src/unnamed/part_000
(lines 39, 88, 112-113, 129, 133): 5, 20, then `min(20 + (i+1)*12, 85)` after
each of the `n` image iterations (`n` is the image-prompt count, 4 in a
schema-conforming run), then 90 and 100. -/
def progressPart0 (n : Nat) : List Nat :=
  [5, 20] ++ (List.range n).map (fun i => min (20 + (i + 1) * 12) 85) ++ [90, 100]

/-- The percentages delivered by the `generateContent` variant appended to
src/services/dbService.ts (lines 102, 147, 166, 178): 5, 20, then
`min(20 + (i+1)*15, 80)` per image iteration, then 100 (this variant reports no
90). -/
def progressDb (n : Nat) : List Nat :=
  [5, 20] ++ (List.range n).map (fun i => min (20 + (i + 1) * 15) 80) ++ [100]

lemma sorted_progress_scaffold (a b : Nat) (f : Nat → Nat) (n : Nat) (t : List Nat)
    (hab : a ≤ b) (hbf : ∀ i, i < n → b ≤ f i)
    (hmono : ∀ i j, i < j → j < n → f i ≤ f j)
    (hst : List.Pairwise (· ≤ ·) t) (hft : ∀ i, i < n → ∀ y ∈ t, f i ≤ y)
    (hbt : ∀ y ∈ t, b ≤ y) :
    List.Pairwise (· ≤ ·) ([a, b] ++ (List.range n).map f ++ t) := by
  rw [List.pairwise_append, List.pairwise_append]
  refine ⟨⟨?_, ?_, ?_⟩, hst, ?_⟩
  · simp [hab]
  · rw [List.pairwise_map]
    refine List.Pairwise.imp_of_mem ?_ (List.pairwise_lt_range n)
    intro i j hi hj hij
    rw [List.mem_range] at hj
    exact hmono i j hij hj
  · intro x hx y hy
    simp only [List.mem_map, List.mem_range] at hy
    obtain ⟨i, hi, rfl⟩ := hy
    rcases List.mem_pair.mp hx with rfl | rfl
    · exact hab.trans (hbf i hi)
    · exact hbf i hi
  · intro x hx y hy
    rcases List.mem_append.mp hx with hx | hx
    · rcases List.mem_pair.mp hx with rfl | rfl
      · exact hab.trans (hbt y hy)
      · exact hbt y hy
    · simp only [List.mem_map, List.mem_range] at hx
      obtain ⟨i, hi, rfl⟩ := hx
      exact hft i hi y hy

/-- Claim C9: for every run of each of the three orchestrator variants, the
sequence of percentages delivered to the progress callback (for any number `n`
of image iterations; the callback is invoked only at these stage boundaries, and
zero times when absent) is monotonically non-decreasing with every value in
[0, 100]. -/
theorem progress_monotone_bounded (n : Nat) :
    (List.Sorted (· ≤ ·) progressGemini ∧ ∀ p ∈ progressGemini, p ≤ 100) ∧
    (List.Sorted (· ≤ ·) (progressPart0 n) ∧ ∀ p ∈ progressPart0 n, p ≤ 100) ∧
    (List.Sorted (· ≤ ·) (progressDb n) ∧ ∀ p ∈ progressDb n, p ≤ 100) := by
  refine ⟨⟨?_, ?_⟩, ⟨?_, ?_⟩, ⟨?_, ?_⟩⟩
  · exact sorted_progress_scaffold 5 25 _ 4 [90, 100] (by omega)
      (fun i hi => by omega) (fun i j hij hj => by omega)
      (by simp) (fun i hi y hy => by rcases List.mem_pair.mp hy with rfl | rfl <;> omega)
      (fun y hy => by rcases List.mem_pair.mp hy with rfl | rfl <;> omega)
  · intro p hp
    simp only [progressGemini, List.mem_append, List.mem_map, List.mem_range,
      List.mem_pair, List.mem_cons, List.not_mem_nil, or_false] at hp
    rcases hp with ((rfl | rfl) | ⟨i, hi, rfl⟩) | rfl | rfl <;> omega
  · exact sorted_progress_scaffold 5 20 _ n [90, 100] (by omega)
      (fun i hi => by omega) (fun i j hij hj => by omega)
      (by simp) (fun i hi y hy => by rcases List.mem_pair.mp hy with rfl | rfl <;> omega)
      (fun y hy => by rcases List.mem_pair.mp hy with rfl | rfl <;> omega)
  · intro p hp
    simp only [progressPart0, List.mem_append, List.mem_map, List.mem_range,
      List.mem_pair, List.mem_cons, List.not_mem_nil, or_false] at hp
    rcases hp with ((rfl | rfl) | ⟨i, hi, rfl⟩) | rfl | rfl <;> omega
  · exact sorted_progress_scaffold 5 20 _ n [100] (by omega)
      (fun i hi => by omega) (fun i j hij hj => by omega)
      (by simp) (fun i hi y hy => by simp at hy; omega)
      (fun y hy => by simp at hy; omega)
  · intro p hp
    simp only [progressDb, List.mem_append, List.mem_map, List.mem_range,
      List.mem_cons, List.not_mem_nil, or_false] at hp
    rcases hp with ((rfl | rfl) | ⟨i, hi, rfl⟩) | rfl <;> omega
